import Mathlib

/-!
Verification development for the iris-session pallet
(src/bin/node-template/pallets/iris-session/src/lib.rs).

The pallet's on-chain storage items `Validators`, `ApprovedValidators` and
`OfflineValidators` are embedded as a record of lists; each dispatchable or
internal helper becomes a function from that record to a pair of an optional
error and the resulting storage state.  Storage writes in the source happen
eagerly, one item at a time, so an operation that fails after a write returns
the mutated state together with the error, exactly as the plain source text
does.  Account ids, asset ids and balances are opaque in the source and are
embedded as natural numbers; byte strings become lists of naturals.
-/

abbrev AccountId := Nat
abbrev AssetId := Nat
abbrev Balance := Nat
abbrev Cid := List Nat
abbrev Multiaddr := List Nat

/-- The error enum of the pallet (`#[pallet::error]`, src lines 126-146). -/
inductive PalletError where
  | TooLowValidatorCount
  | Duplicate
  | ValidatorNotApproved
  | BadOrigin
  | CantCreateRequest
  | RequestTimeout
  | RequestFailed
  | NoSuchOwnedContent
  | InsufficientBalance
deriving DecidableEq, Repr

/-- The three validator-set storage values of the pallet:
`Validators` (src line 102), `ApprovedValidators` (line 106) and
`OfflineValidators` (line 110), each a `StorageValue` holding a vector of
account ids with `ValueQuery` (default empty). -/
structure PalletState where
  validators : List AccountId
  approvedValidators : List AccountId
  offlineValidators : List AccountId
deriving DecidableEq, Repr

/-- Embeds `initialize_validators` (src lines 267-272): asserts that at least
two validators are given and that `Validators` is still empty (an assertion
failure is a panic, embedded as `none`), then writes the given list to both
`Validators` and `ApprovedValidators` with no duplicate filtering. -/
def initialize_validators (s : PalletState) (validators : List AccountId) :
    Option PalletState :=
  if validators.length > 1 ∧ s.validators = [] then
    some { s with validators := validators, approvedValidators := validators }
  else
    none

/-- Embeds `do_add_validator` (src lines 274-283): collect `Validators` into a
set, fail with `Duplicate` if the id is already a member, otherwise push the id
onto `Validators`. -/
def do_add_validator (s : PalletState) (validator_id : AccountId) :
    Option PalletError × PalletState :=
  if validator_id ∈ s.validators then
    (some PalletError.Duplicate, s)
  else
    (none, { s with validators := s.validators ++ [validator_id] })

/-- Embeds `do_remove_validator` (src lines 285-303): `ensure!` that the
post-removal count `validators.len().saturating_sub(1) as u32` is at least
`MinAuthorities` (the saturating subtraction is `Nat` subtraction and the
`as u32` cast is reduction modulo 2^32), failing with `TooLowValidatorCount`
before any write; otherwise retain every entry different from the id and write
the result back. -/
def do_remove_validator (minAuthorities : Nat) (s : PalletState)
    (validator_id : AccountId) : Option PalletError × PalletState :=
  if (s.validators.length - 1) % 2 ^ 32 < minAuthorities then
    (some PalletError.TooLowValidatorCount, s)
  else
    (none,
      { s with validators := s.validators.filter (fun v => decide (v ≠ validator_id)) })

/-- Embeds `approve_validator` (src lines 308-314): fail with `Duplicate` if
the id is already in `ApprovedValidators`, otherwise push it. -/
def approve_validator (s : PalletState) (validator_id : AccountId) :
    Option PalletError × PalletState :=
  if validator_id ∈ s.approvedValidators then
    (some PalletError.Duplicate, s)
  else
    (none, { s with approvedValidators := s.approvedValidators ++ [validator_id] })

/-- Embeds `unapprove_validator` (src lines 317-321): the source reads
`ApprovedValidators` into a local vector, retains the entries different from
the id in that local vector, and returns `Ok` WITHOUT ever writing the retained
vector back to storage, so the storage state is unchanged.  The dead local
computation is kept here so the embedding mirrors the source text. -/
def unapprove_validator (s : PalletState) (validator_id : AccountId) :
    Option PalletError × PalletState :=
  let approved_set := s.approvedValidators.filter (fun v => decide (v ≠ validator_id))
  let _ := approved_set
  (none, s)

/-- Embeds the `add_validator` dispatchable (src lines 201-208) after its
origin check: `do_add_validator` with the `?` operator, then
`approve_validator` with the `?` operator.  An early `?` return leaves the
storage writes already performed in place. -/
def add_validator (s : PalletState) (validator_id : AccountId) :
    Option PalletError × PalletState :=
  match do_add_validator s validator_id with
  | (some e, s1) => (some e, s1)
  | (none, s1) =>
    match approve_validator s1 validator_id with
    | (some e, s2) => (some e, s2)
    | (none, s2) => (none, s2)

/-- Embeds the `remove_validator` dispatchable (src lines 215-225) after its
origin check: `do_remove_validator` then `unapprove_validator`, each with `?`. -/
def remove_validator (minAuthorities : Nat) (s : PalletState)
    (validator_id : AccountId) : Option PalletError × PalletState :=
  match do_remove_validator minAuthorities s validator_id with
  | (some e, s1) => (some e, s1)
  | (none, s1) => unapprove_validator s1 validator_id

/-- Embeds the `add_validator_again` dispatchable (src lines 231-244):
`ensure!` the signed caller equals the target id (`BadOrigin`), `ensure!` the
id is in `ApprovedValidators` (`ValidatorNotApproved`), then `do_add_validator`. -/
def add_validator_again (s : PalletState) (who validator_id : AccountId) :
    Option PalletError × PalletState :=
  if who ≠ validator_id then
    (some PalletError.BadOrigin, s)
  else if validator_id ∉ s.approvedValidators then
    (some PalletError.ValidatorNotApproved, s)
  else
    do_add_validator s validator_id

/-- Embeds `mark_for_removal` (src lines 324-327): push the id onto
`OfflineValidators` with no duplicate check. -/
def mark_for_removal (s : PalletState) (validator_id : AccountId) : PalletState :=
  { s with offlineValidators := s.offlineValidators ++ [validator_id] }

/-- Embeds `report_offence` (src lines 661-669): mark every offender for
removal; always returns `Ok`. -/
def report_offence (s : PalletState) (offenders : List AccountId) : PalletState :=
  offenders.foldl mark_for_removal s

/-- Embeds `remove_offline_validators` (src lines 334-347): collect
`OfflineValidators` into a set, retain in `Validators` only the ids not in that
set (no `MinAuthorities` check here, by the source's own comment), then clear
`OfflineValidators`. -/
def remove_offline_validators (s : PalletState) : PalletState :=
  { s with
      validators := s.validators.filter (fun v => decide (v ∉ s.offlineValidators)),
      offlineValidators := [] }

/-- Embeds `new_session` (src lines 591-601): remove the offline validators,
then return `Some` of the current `Validators` storage value as the plan. -/
def new_session (s : PalletState) (_new_index : Nat) :
    Option (List AccountId) × PalletState :=
  let s1 := remove_offline_validators s
  (some s1.validators, s1)

/-- Embeds `retrieve_bytes` (src lines 355-367): the public key and signature
parameters are bound but never used (signature verification is a TODO in the
source); the message bytes are used as the key into persistent local storage,
returning the stored bytes or the empty byte vector.  Local storage is passed
in as a lookup function. -/
def retrieve_bytes (storage : List Nat → Option (List Nat))
    (_public_key _signature message : List Nat) : List Nat :=
  match storage message with
  | some data => data
  | none => []

/-! ## Off-chain worker: remote store client, pipeline and housekeeping

The off-chain worker talks to the embedded IPFS node through `ipfs_request`
(src lines 370-387), which translates failures into `CantCreateRequest`,
`RequestTimeout` or `RequestFailed`.  The whole collaborator (request
construction, deadline wait and the store itself) is embedded as an oracle
function from request to `Except PalletError IpfsResponse`; every call made,
every ledger balance read, every local-storage write and every signed
transaction submission is recorded in a trace so that the theorems can speak
about which external effects a run performs. -/

/-- The request kinds of `sp_core::offchain::IpfsRequest` used by this pallet. -/
inductive IpfsRequest where
  | Identity
  | Connect (addr : Multiaddr)
  | Disconnect (addr : Multiaddr)
  | CatBytes (cid : Cid)
  | AddBytes (data : List Nat)
  | Peers
deriving DecidableEq, Repr

/-- The response kinds of `sp_core::offchain::IpfsResponse` used by this pallet. -/
inductive IpfsResponse where
  | Identity (public_key : List Nat) (addrs : List Multiaddr)
  | Success
  | CatBytes (data : List Nat)
  | AddBytes (cid : Cid)
  | Peers (peers : List (List Nat))
deriving DecidableEq, Repr

/-- The two variants of `pallet_iris_assets::DataCommand` matched by
`handle_data_requests` (src lines 462 and 518): `AddBytes` carries
{source multiaddress, content id, admin, display name, asset id, balance};
`CatBytes` carries {owner, content id, recipient}. -/
inductive DataCommand where
  | AddBytes (addr : Multiaddr) (cid : Cid) (admin : AccountId) (name : List Nat)
      (id : AssetId) (balance : Balance)
  | CatBytes (owner : AccountId) (cid : Cid) (recipient : AccountId)
deriving DecidableEq, Repr

/-- The signed transaction calls the pipeline can submit to the ledger pallet:
`submit_ipfs_add_results` (src line 495) and `submit_rpc_ready` (src line 542). -/
inductive SubmittedCall where
  | submit_ipfs_add_results (admin : AccountId) (cid : Cid) (id : AssetId)
      (balance : Balance)
  | submit_rpc_ready (beneficiary : AccountId)
deriving DecidableEq, Repr

/-- Externally visible effects of one off-chain worker run, in order. -/
inductive TraceEvent where
  | ipfsCall (req : IpfsRequest)
  | balanceQuery (id : AssetId) (who : AccountId)
  | storageSet (key : Cid) (value : List Nat)
  | txSubmit (call : SubmittedCall)
deriving DecidableEq, Repr

/-- Outcome of handling one data command inside the pipeline loop:
`ok` means the loop continues with the next command (this includes commands
abandoned by a logged, caught error); `fatal e` means the `?` operator or an
`ensure!` propagated `e` out of `handle_data_requests`, abandoning the rest of
the queue; `contractViolation` means an `unreachable!` was reached (a response
variant not matching the request kind). -/
inductive StepOutcome where
  | ok
  | fatal (e : PalletError)
  | contractViolation
deriving DecidableEq, Repr

/-- Overall outcome of an off-chain worker entry point. -/
inductive RunResult where
  | ok
  | err (e : PalletError)
  | contractViolation
deriving DecidableEq, Repr

/-- Modelled from the spec: the ledger collaborator (`pallet_iris_assets`) is
not under src/; per the spec it exposes `resolveAssetId(owner, contentId) ->
Option<AssetId>`, i.e. a partial asset-ownership map keyed by {owner, content
id}. -/
structure Ledger where
  ownership : AccountId → Cid → Option AssetId

/-- The `asset_class_ownership` storage getter as used at the call site
(src line 519): a FRAME double-map getter with `ValueQuery` returns the stored
asset id, or the default asset id (0) when the pair has no entry.  The call
site binds the result with the irrefutable pattern `if let asset_id = ...`,
which can never fail. -/
def asset_class_ownership (L : Ledger) (owner : AccountId) (cid : Cid) : AssetId :=
  (L.ownership owner cid).getD 0

/-- The collaborators of one off-chain worker run: the IPFS oracle (store plus
the request/deadline machinery of `ipfs_request`), the `BootstrapNodes` map as
an association list in iteration order, the data queue snapshot, the ledger's
ownership map, the assets pallet's balance function, and the local signing
accounts answering `Signer::all_accounts()`. -/
structure Env where
  ipfs : IpfsRequest → Except PalletError IpfsResponse
  bootstrapNodes : List (List Nat × List Multiaddr)
  dataQueue : List DataCommand
  ledger : Ledger
  balanceOf : AssetId → AccountId → Balance
  signingAccounts : List AccountId

/-- Embeds the per-command body of the `for cmd in data_queue` loop of
`handle_data_requests` (src lines 460-561).

`AddBytes` branch (lines 462-517): `Connect` with `?` (any `Ok` response
continues, an `Err` propagates); match on `CatBytes`: a caught error abandons
the command, a non-`CatBytes` `Ok` response is `unreachable!`; on data,
`Disconnect` with `?`; match on `AddBytes`: a caught error abandons the
command, a non-`AddBytes` `Ok` response is `unreachable!`; on a new cid, one
signed `submit_ipfs_add_results` transaction is sent per signing account.

`CatBytes` branch (lines 518-560): resolve the asset id through the
irrefutable `if let` (the log-and-skip `else` branch of the source is
unreachable), read the recipient's balance, convert it to `u64` with
`TryInto::<u64>::try_into(balance).ok()`, and `ensure!` the converted value is
not `Some(0)` (`InsufficientBalance` propagates out of the loop); then match on
`CatBytes`: a caught error abandons the command, a non-`CatBytes` `Ok`
response is `unreachable!`; on data, write the bytes to persistent local
storage under the content id and send one signed `submit_rpc_ready`
transaction per signing account. -/
def handle_command (env : Env) (cmd : DataCommand) : StepOutcome × List TraceEvent :=
  match cmd with
  | DataCommand.AddBytes addr cid admin _name id balance =>
    match env.ipfs (IpfsRequest.Connect addr) with
    | Except.error e => (StepOutcome.fatal e, [TraceEvent.ipfsCall (IpfsRequest.Connect addr)])
    | Except.ok _ =>
      match env.ipfs (IpfsRequest.CatBytes cid) with
      | Except.ok (IpfsResponse.CatBytes data) =>
        match env.ipfs (IpfsRequest.Disconnect addr) with
        | Except.error e =>
          (StepOutcome.fatal e,
            [TraceEvent.ipfsCall (IpfsRequest.Connect addr),
             TraceEvent.ipfsCall (IpfsRequest.CatBytes cid),
             TraceEvent.ipfsCall (IpfsRequest.Disconnect addr)])
        | Except.ok _ =>
          match env.ipfs (IpfsRequest.AddBytes data) with
          | Except.ok (IpfsResponse.AddBytes new_cid) =>
            (StepOutcome.ok,
              [TraceEvent.ipfsCall (IpfsRequest.Connect addr),
               TraceEvent.ipfsCall (IpfsRequest.CatBytes cid),
               TraceEvent.ipfsCall (IpfsRequest.Disconnect addr),
               TraceEvent.ipfsCall (IpfsRequest.AddBytes data)]
              ++ env.signingAccounts.map (fun _ =>
                   TraceEvent.txSubmit
                     (SubmittedCall.submit_ipfs_add_results admin new_cid id balance)))
          | Except.ok _ =>
            (StepOutcome.contractViolation,
              [TraceEvent.ipfsCall (IpfsRequest.Connect addr),
               TraceEvent.ipfsCall (IpfsRequest.CatBytes cid),
               TraceEvent.ipfsCall (IpfsRequest.Disconnect addr),
               TraceEvent.ipfsCall (IpfsRequest.AddBytes data)])
          | Except.error _ =>
            (StepOutcome.ok,
              [TraceEvent.ipfsCall (IpfsRequest.Connect addr),
               TraceEvent.ipfsCall (IpfsRequest.CatBytes cid),
               TraceEvent.ipfsCall (IpfsRequest.Disconnect addr),
               TraceEvent.ipfsCall (IpfsRequest.AddBytes data)])
      | Except.ok _ =>
        (StepOutcome.contractViolation,
          [TraceEvent.ipfsCall (IpfsRequest.Connect addr),
           TraceEvent.ipfsCall (IpfsRequest.CatBytes cid)])
      | Except.error _ =>
        (StepOutcome.ok,
          [TraceEvent.ipfsCall (IpfsRequest.Connect addr),
           TraceEvent.ipfsCall (IpfsRequest.CatBytes cid)])
  | DataCommand.CatBytes owner cid recipient =>
    let asset_id := asset_class_ownership env.ledger owner cid
    let balance := env.balanceOf asset_id recipient
    let balance_primitive : Option Nat := if balance < 2 ^ 64 then some balance else none
    if balance_primitive = some 0 then
      (StepOutcome.fatal PalletError.InsufficientBalance,
        [TraceEvent.balanceQuery asset_id recipient])
    else
      match env.ipfs (IpfsRequest.CatBytes cid) with
      | Except.ok (IpfsResponse.CatBytes data) =>
        (StepOutcome.ok,
          [TraceEvent.balanceQuery asset_id recipient,
           TraceEvent.ipfsCall (IpfsRequest.CatBytes cid),
           TraceEvent.storageSet cid data]
          ++ env.signingAccounts.map (fun _ =>
               TraceEvent.txSubmit (SubmittedCall.submit_rpc_ready recipient)))
      | Except.ok _ =>
        (StepOutcome.contractViolation,
          [TraceEvent.balanceQuery asset_id recipient,
           TraceEvent.ipfsCall (IpfsRequest.CatBytes cid)])
      | Except.error _ =>
        (StepOutcome.ok,
          [TraceEvent.balanceQuery asset_id recipient,
           TraceEvent.ipfsCall (IpfsRequest.CatBytes cid)])

/-- The pipeline loop over a queue snapshot: commands run in order; a `fatal`
outcome or an `unreachable!` stops the loop, discarding every later command. -/
def run_queue (env : Env) : List DataCommand → RunResult × List TraceEvent
  | [] => (RunResult.ok, [])
  | c :: rest =>
    match handle_command env c with
    | (StepOutcome.ok, t) =>
      match run_queue env rest with
      | (r, t2) => (r, t ++ t2)
    | (StepOutcome.fatal e, t) => (RunResult.err e, t)
    | (StepOutcome.contractViolation, t) => (RunResult.contractViolation, t)

/-- Embeds `handle_data_requests` (src lines 452-565): drain the data-queue
snapshot through the per-command loop. -/
def handle_data_requests (env : Env) : RunResult × List TraceEvent :=
  run_queue env env.dataQueue

/-- Embeds `connection_housekeeping` (src lines 395-449): query `Identity`
with `?` (a non-`Identity` response is `unreachable!`); if the node's own
public key is a key of `BootstrapNodes`, do nothing more; otherwise take the
first directory entry (`iter().nth(0)`), `clone()` its multiaddress list and
`pop()` it (yielding the LAST multiaddress) and `Connect` to it with `?`
(a transport error propagates; only a non-`Success` `Ok` response counts as a
connect failure); on failure, `clone()` the SAME original list again and
`pop()` it — yielding the same last multiaddress again — and `Connect` to that
with `?`.  The identity-publication step is commented out in the source. -/
def connection_housekeeping (env : Env) : RunResult × List TraceEvent :=
  match env.ipfs IpfsRequest.Identity with
  | Except.error e => (RunResult.err e, [TraceEvent.ipfsCall IpfsRequest.Identity])
  | Except.ok (IpfsResponse.Identity public_key _addrs) =>
    if env.bootstrapNodes.any (fun kv => kv.1 = public_key) then
      (RunResult.ok, [TraceEvent.ipfsCall IpfsRequest.Identity])
    else
      match env.bootstrapNodes.head? with
      | none => (RunResult.ok, [TraceEvent.ipfsCall IpfsRequest.Identity])
      | some bootstrap_node =>
        match bootstrap_node.2.getLast? with
        | none => (RunResult.ok, [TraceEvent.ipfsCall IpfsRequest.Identity])
        | some bootnode_maddr =>
          match env.ipfs (IpfsRequest.Connect bootnode_maddr) with
          | Except.error e =>
            (RunResult.err e,
              [TraceEvent.ipfsCall IpfsRequest.Identity,
               TraceEvent.ipfsCall (IpfsRequest.Connect bootnode_maddr)])
          | Except.ok IpfsResponse.Success =>
            (RunResult.ok,
              [TraceEvent.ipfsCall IpfsRequest.Identity,
               TraceEvent.ipfsCall (IpfsRequest.Connect bootnode_maddr)])
          | Except.ok _ =>
            match bootstrap_node.2.getLast? with
            | none =>
              (RunResult.ok,
                [TraceEvent.ipfsCall IpfsRequest.Identity,
                 TraceEvent.ipfsCall (IpfsRequest.Connect bootnode_maddr)])
            | some next_bootnode_maddr =>
              match env.ipfs (IpfsRequest.Connect next_bootnode_maddr) with
              | Except.error e =>
                (RunResult.err e,
                  [TraceEvent.ipfsCall IpfsRequest.Identity,
                   TraceEvent.ipfsCall (IpfsRequest.Connect bootnode_maddr),
                   TraceEvent.ipfsCall (IpfsRequest.Connect next_bootnode_maddr)])
              | Except.ok _ =>
                (RunResult.ok,
                  [TraceEvent.ipfsCall IpfsRequest.Identity,
                   TraceEvent.ipfsCall (IpfsRequest.Connect bootnode_maddr),
                   TraceEvent.ipfsCall (IpfsRequest.Connect next_bootnode_maddr)])
  | Except.ok _ =>
    (RunResult.contractViolation, [TraceEvent.ipfsCall IpfsRequest.Identity])

/-! ## Registry operation sequences -/

/-- A registry operation reachable through the public entry points:
add validator, reinstate (re-add) validator, remove validator. -/
inductive RegistryOp where
  | add (id : AccountId)
  | addAgain (who id : AccountId)
  | remove (id : AccountId)
deriving DecidableEq, Repr

/-- Apply one registry entry point, keeping the (possibly mutated) state
whether or not the call reports an error. -/
def applyOp (minAuthorities : Nat) (s : PalletState) (op : RegistryOp) : PalletState :=
  match op with
  | RegistryOp.add id => (add_validator s id).2
  | RegistryOp.addAgain who id => (add_validator_again s who id).2
  | RegistryOp.remove id => (remove_validator minAuthorities s id).2

/-- Apply a sequence of registry entry points in order. -/
def applyOps (minAuthorities : Nat) (s : PalletState) (ops : List RegistryOp) :
    PalletState :=
  ops.foldl (applyOp minAuthorities) s

/-- `add_validator` either leaves `Validators` unchanged or appends a
previously absent id. -/
lemma add_validator_validators_cases (s : PalletState) (id : AccountId) :
    (add_validator s id).2.validators = s.validators ∨
    (id ∉ s.validators ∧
      (add_validator s id).2.validators = s.validators ++ [id]) := by
  by_cases hv : id ∈ s.validators
  · left
    simp [add_validator, do_add_validator, hv]
  · right
    refine ⟨hv, ?_⟩
    by_cases ha : id ∈ s.approvedValidators
    · simp [add_validator, do_add_validator, approve_validator, hv, ha]
    · simp [add_validator, do_add_validator, approve_validator, hv, ha]

/-- `add_validator_again` either leaves `Validators` unchanged or appends a
previously absent id. -/
lemma add_validator_again_validators_cases (s : PalletState) (who id : AccountId) :
    (add_validator_again s who id).2.validators = s.validators ∨
    (id ∉ s.validators ∧
      (add_validator_again s who id).2.validators = s.validators ++ [id]) := by
  by_cases hw : who = id
  · by_cases ha : id ∈ s.approvedValidators
    · by_cases hv : id ∈ s.validators
      · left
        simp [add_validator_again, do_add_validator, hw, ha, hv]
      · right
        refine ⟨hv, ?_⟩
        simp [add_validator_again, do_add_validator, hw, ha, hv]
    · left
      simp [add_validator_again, hw, ha]
  · left
    simp [add_validator_again, hw]

/-- `remove_validator` either leaves `Validators` unchanged or filters it. -/
lemma remove_validator_validators_cases (minAuthorities : Nat) (s : PalletState)
    (id : AccountId) :
    (remove_validator minAuthorities s id).2.validators = s.validators ∨
    (remove_validator minAuthorities s id).2.validators =
      s.validators.filter (fun v => decide (v ≠ id)) := by
  by_cases hc : (s.validators.length - 1) % 2 ^ 32 < minAuthorities
  · left
    unfold remove_validator do_remove_validator
    rw [if_pos hc]
  · right
    unfold remove_validator do_remove_validator unapprove_validator
    rw [if_neg hc]

/-- Each registry entry point preserves duplicate-freedom of `Validators`. -/
lemma nodup_applyOp (minAuthorities : Nat) (s : PalletState) (op : RegistryOp)
    (h : s.validators.Nodup) : (applyOp minAuthorities s op).validators.Nodup := by
  cases op with
  | add id =>
    rcases add_validator_validators_cases s id with hcase | ⟨hmem, hcase⟩
    · simpa [applyOp, hcase]
    · simp [applyOp, hcase, List.nodup_append, h, hmem]
  | addAgain who id =>
    rcases add_validator_again_validators_cases s who id with hcase | ⟨hmem, hcase⟩
    · simpa [applyOp, hcase]
    · simp [applyOp, hcase, List.nodup_append, h, hmem]
  | remove id =>
    rcases remove_validator_validators_cases minAuthorities s id with hcase | hcase
    · simpa [applyOp, hcase]
    · simp only [applyOp, hcase]
      exact h.filter _

/-- Duplicate-freedom of `Validators` is preserved by any operation sequence. -/
lemma nodup_applyOps (minAuthorities : Nat) (s : PalletState) (ops : List RegistryOp)
    (h : s.validators.Nodup) : (applyOps minAuthorities s ops).validators.Nodup := by
  induction ops generalizing s with
  | nil => simpa [applyOps]
  | cons op rest ih =>
    simp only [applyOps, List.foldl_cons]
    exact ih (applyOp minAuthorities s op) (nodup_applyOp minAuthorities s op h)

/-! ## Claim theorems: validator registry -/

/-- C3: the claim fails on the code.  At the concrete state with
`Validators = ApprovedValidators = [1, 2, 3]` and minimum 2, the
`removeValidator` entry point succeeds for id 1 (it is removed from
`Validators`), yet id 1 is still present in `ApprovedValidators` afterwards:
`unapprove_validator` computes its retained list but never writes it back to
storage. -/
theorem C3_remove_validator_keeps_approval :
    remove_validator 2
        { validators := [1, 2, 3], approvedValidators := [1, 2, 3],
          offlineValidators := [] } 1 =
      (none,
        { validators := [2, 3], approvedValidators := [1, 2, 3],
          offlineValidators := [] }) ∧
    1 ∈ (remove_validator 2
        { validators := [1, 2, 3], approvedValidators := [1, 2, 3],
          offlineValidators := [] } 1).2.approvedValidators := by
  decide

/-- C4, counterexample: at the state with `Validators = [2, 3]` and
`ApprovedValidators = [1, 2, 3]` (reachable, e.g., after an offline removal of
validator 1), the `addValidator` entry point for id 1 returns the `Duplicate`
error, yet `Validators` has already been mutated to `[2, 3, 1]` by the time
the approval step fails — the claim that a failed registry call leaves both
sets exactly as they were is false. -/
theorem C4_add_validator_partial_mutation :
    add_validator
        { validators := [2, 3], approvedValidators := [1, 2, 3],
          offlineValidators := [] } 1 =
      (some PalletError.Duplicate,
        { validators := [2, 3, 1], approvedValidators := [1, 2, 3],
          offlineValidators := [] }) ∧
    ({ validators := [2, 3, 1], approvedValidators := [1, 2, 3],
       offlineValidators := [] } : PalletState) ≠
      { validators := [2, 3], approvedValidators := [1, 2, 3],
        offlineValidators := [] } := by
  decide

/-- C4, amended: a failed `removeValidator` or `addValidatorAgain` call leaves
the state exactly as it was; a failed `addValidator` call either leaves the
state unchanged (id already active) or — when the id is absent from
`Validators` but present in `ApprovedValidators` — has already appended the id
to `Validators` when the approval step fails with `Duplicate`, and that
insertion survives the failed call. -/
theorem C4_failed_calls_state (minAuthorities : Nat) (s : PalletState)
    (who validator_id : AccountId) :
    (∀ e, (remove_validator minAuthorities s validator_id).1 = some e →
        (remove_validator minAuthorities s validator_id).2 = s) ∧
    (∀ e, (add_validator_again s who validator_id).1 = some e →
        (add_validator_again s who validator_id).2 = s) ∧
    (∀ e, (add_validator s validator_id).1 = some e →
        (add_validator s validator_id).2 = s ∨
          (e = PalletError.Duplicate ∧ validator_id ∉ s.validators ∧
            validator_id ∈ s.approvedValidators ∧
            (add_validator s validator_id).2 =
              { s with validators := s.validators ++ [validator_id] })) := by
  refine ⟨?_, ?_, ?_⟩
  · intro e h
    by_cases hc : (s.validators.length - 1) % 2 ^ 32 < minAuthorities
    · unfold remove_validator do_remove_validator
      rw [if_pos hc]
    · unfold remove_validator do_remove_validator unapprove_validator at h
      rw [if_neg hc] at h
      simp at h
  · intro e h
    by_cases hw : who = validator_id
    · by_cases ha : validator_id ∈ s.approvedValidators
      · by_cases hv : validator_id ∈ s.validators
        · simp [add_validator_again, do_add_validator, hw, ha, hv]
        · simp [add_validator_again, do_add_validator, hw, ha, hv] at h
      · simp [add_validator_again, hw, ha]
    · simp [add_validator_again, hw]
  · intro e h
    by_cases hv : validator_id ∈ s.validators
    · left
      simp [add_validator, do_add_validator, hv]
    · by_cases ha : validator_id ∈ s.approvedValidators
      · right
        simp [add_validator, do_add_validator, approve_validator, hv, ha] at h ⊢
        exact h.symm
      · simp [add_validator, do_add_validator, approve_validator, hv, ha] at h
  
/-- C4, witness: the amended theorem applied at a concrete failing
`removeValidator` call (three validators, minimum five). -/
theorem C4_failed_calls_state_witness :
    (remove_validator 5
        { validators := [1, 2, 3], approvedValidators := [1, 2, 3],
          offlineValidators := [] } 1).2 =
      { validators := [1, 2, 3], approvedValidators := [1, 2, 3],
        offlineValidators := [] } :=
  (C4_failed_calls_state 5
      { validators := [1, 2, 3], approvedValidators := [1, 2, 3],
        offlineValidators := [] } 0 1).1
    PalletError.TooLowValidatorCount (by decide)

/-- C5: at a session-plan boundary, every id accumulated in
`OfflineValidators` is absent from the resulting `Validators`,
`OfflineValidators` is cleared, the plan returned is `Some` of the current
`Validators` (never `None`), and marking the same id a second time before the
boundary changes nothing (removal is idempotent).  The statement holds for
every state — including states where the removals drop the count below any
minimum — because `remove_offline_validators` performs no minimum-count
check. -/
theorem C5_session_boundary_offline_removal (s : PalletState) (idx : Nat) :
    (∀ id, id ∈ s.offlineValidators → id ∉ (new_session s idx).2.validators) ∧
    (new_session s idx).2.offlineValidators = [] ∧
    (new_session s idx).1 = some (new_session s idx).2.validators ∧
    (∀ id, new_session (mark_for_removal (mark_for_removal s id) id) idx =
        new_session (mark_for_removal s id) idx) := by
  refine ⟨?_, rfl, rfl, ?_⟩
  · intro id hid hmem
    simp only [new_session, remove_offline_validators, List.mem_filter,
      decide_eq_true_eq] at hmem
    exact hmem.2 hid
  · intro id
    have key : ∀ l : List AccountId,
        l.filter
            (fun v => decide (v ∉ (s.offlineValidators ++ [id]) ++ [id])) =
          l.filter (fun v => decide (v ∉ s.offlineValidators ++ [id])) := by
      intro l
      apply List.filter_congr
      intro a _
      apply decide_eq_decide.mpr
      simp [List.mem_append]
    simp only [new_session, remove_offline_validators, mark_for_removal]
    rw [key]

/-- A concrete state in which ids 1 and 2 were reported offline, id 1 twice,
out of three active validators. -/
def offlineMarkedState : PalletState :=
  { validators := [1, 2, 3], approvedValidators := [1, 2, 3],
    offlineValidators := [1, 2, 1] }

/-- C5, witness: the theorem applied at the concrete offline-marked state. -/
theorem C5_session_boundary_offline_removal_witness :
    (∀ id, id ∈ offlineMarkedState.offlineValidators →
        id ∉ (new_session offlineMarkedState 7).2.validators) ∧
    (new_session offlineMarkedState 7).2.offlineValidators = [] ∧
    (new_session offlineMarkedState 7).1 =
      some (new_session offlineMarkedState 7).2.validators ∧
    (∀ id, new_session (mark_for_removal (mark_for_removal offlineMarkedState id) id) 7 =
        new_session (mark_for_removal offlineMarkedState id) 7) :=
  C5_session_boundary_offline_removal offlineMarkedState 7

/-- C8, counterexample: the claim quantifies over every initialized state, but
`initialize_validators` accepts a duplicate initial list: initializing with
`[0, 0]` succeeds and the resulting `ActiveValidators` (after the empty
operation sequence) contains id 0 twice. -/
theorem C8_duplicate_initialization :
    initialize_validators
        { validators := [], approvedValidators := [], offlineValidators := [] }
        [0, 0] =
      some ({ validators := [0, 0], approvedValidators := [0, 0],
              offlineValidators := [] } : PalletState) ∧
    ¬ (applyOps 0
        { validators := [0, 0], approvedValidators := [0, 0],
          offlineValidators := [] } []).validators.Nodup := by
  decide

/-- C8, amended: starting from a state initialized with a duplicate-free
initial set, every sequence of add-validator, reinstate-validator and
remove-validator entry points leaves `ActiveValidators` free of duplicates. -/
theorem C8_nodup_preserved (minAuthorities : Nat) (s0 s : PalletState)
    (init : List AccountId) (hinit : initialize_validators s0 init = some s)
    (hnd : init.Nodup) (ops : List RegistryOp) :
    (applyOps minAuthorities s ops).validators.Nodup := by
  have hs : s.validators = init := by
    unfold initialize_validators at hinit
    split at hinit
    · cases hinit
      rfl
    · cases hinit
  exact nodup_applyOps minAuthorities s ops (hs ▸ hnd)

/-- C8, witness: the amended theorem at the concrete initialization `[1, 2]`
followed by adding validator 3 and removing validator 1. -/
theorem C8_nodup_preserved_witness :
    (applyOps 1
        { validators := [1, 2], approvedValidators := [1, 2],
          offlineValidators := [] }
        [RegistryOp.add 3, RegistryOp.remove 1]).validators.Nodup :=
  C8_nodup_preserved 1
    { validators := [], approvedValidators := [], offlineValidators := [] }
    { validators := [1, 2], approvedValidators := [1, 2],
      offlineValidators := [] }
    [1, 2] (by decide) (by decide) [RegistryOp.add 3, RegistryOp.remove 1]

/-- C9: `retrieve_bytes` is independent of the public key and signature
arguments — any two calls with the same message against the same local storage
agree — and its value is determined by the message key alone: the stored bytes
when present, the empty byte vector when absent. -/
theorem C9_retrieve_bytes_signature_independent
    (storage : List Nat → Option (List Nat))
    (pk1 sig1 pk2 sig2 message : List Nat) :
    retrieve_bytes storage pk1 sig1 message =
      retrieve_bytes storage pk2 sig2 message ∧
    (∀ data, storage message = some data →
        retrieve_bytes storage pk1 sig1 message = data) ∧
    (storage message = none → retrieve_bytes storage pk1 sig1 message = []) := by
  refine ⟨rfl, ?_, ?_⟩
  · intro data h
    simp [retrieve_bytes, h]
  · intro h
    simp [retrieve_bytes, h]

/-- C9, witness: the theorem at a concrete one-entry storage, with two
different key/signature pairs. -/
theorem C9_retrieve_bytes_signature_independent_witness :
    retrieve_bytes (fun m => if m = [1] then some [9] else none) [2] [3] [1] =
      [9] :=
  (C9_retrieve_bytes_signature_independent
      (fun m => if m = [1] then some [9] else none) [2] [3] [4] [5] [1]).2.1
    [9] rfl

/-- C10: for an id absent from `Validators`, `do_remove_validator` fails with
`TooLowValidatorCount` whenever the current count minus one is below the
configured minimum (even though removing the absent id would not change the
count), and when the count check passes it reports success and leaves the
state — in particular `Validators` — completely unchanged. -/
theorem C10_remove_absent_id (minAuthorities : Nat) (s : PalletState)
    (validator_id : AccountId) (hmin : minAuthorities < 2 ^ 32)
    (hid : validator_id ∉ s.validators) :
    (s.validators.length - 1 < minAuthorities →
      do_remove_validator minAuthorities s validator_id =
        (some PalletError.TooLowValidatorCount, s)) ∧
    (¬ (s.validators.length - 1) % 2 ^ 32 < minAuthorities →
      do_remove_validator minAuthorities s validator_id = (none, s)) := by
  constructor
  · intro hlt
    have hmod : (s.validators.length - 1) % 2 ^ 32 < minAuthorities := by
      rw [Nat.mod_eq_of_lt (lt_trans hlt hmin)]
      exact hlt
    unfold do_remove_validator
    rw [if_pos hmod]
  · intro hge
    have hfilter : s.validators.filter (fun v => decide (v ≠ validator_id)) =
        s.validators := by
      apply List.filter_eq_self.mpr
      intro a ha
      simp only [decide_eq_true_eq]
      exact fun hEq => hid (hEq ▸ ha)
    unfold do_remove_validator
    rw [if_neg hge, hfilter]

/-- C10, witness: the theorem at three validators, minimum 2, absent id 4:
count minus one is 2 which meets the minimum, so the call succeeds and the
state is unchanged. -/
theorem C10_remove_absent_id_witness :
    do_remove_validator 2
        { validators := [1, 2, 3], approvedValidators := [1, 2, 3],
          offlineValidators := [] } 4 =
      (none,
        { validators := [1, 2, 3], approvedValidators := [1, 2, 3],
          offlineValidators := [] }) :=
  (C10_remove_absent_id 2
      { validators := [1, 2, 3], approvedValidators := [1, 2, 3],
        offlineValidators := [] } 4 (by decide) (by decide)).2 (by decide)

/-! ## Claim theorems: off-chain pipeline and housekeeping -/

/-- An environment whose resolved asset yields a recipient balance of `2^64`,
a value on which the `TryInto::<u64>` conversion fails (`ok()` gives `None`). -/
def envConversionFailure : Env :=
  { ipfs := fun req =>
      match req with
      | IpfsRequest.CatBytes _ => Except.ok (IpfsResponse.CatBytes [9])
      | _ => Except.ok IpfsResponse.Success,
    bootstrapNodes := [],
    dataQueue := [DataCommand.CatBytes 1 [7] 2],
    ledger := { ownership := fun _ _ => some 5 },
    balanceOf := fun _ _ => 2 ^ 64,
    signingAccounts := [4] }

/-- Like `envConversionFailure` but with every balance zero. -/
def envZeroBalance : Env :=
  { ipfs := fun req =>
      match req with
      | IpfsRequest.CatBytes _ => Except.ok (IpfsResponse.CatBytes [9])
      | _ => Except.ok IpfsResponse.Success,
    bootstrapNodes := [],
    dataQueue := [DataCommand.CatBytes 1 [7] 2],
    ledger := { ownership := fun _ _ => some 5 },
    balanceOf := fun _ _ => 0,
    signingAccounts := [4] }

/-- C1, counterexample: a Fetch command whose recipient balance is `2^64`
makes the numeric conversion fail (`None`), and the `ensure!(balance_primitive
!= Some(0))` check then PASSES: the command is not failed with
`InsufficientBalance`, the store fetch is performed, and the content is even
delivered — a failed conversion is treated as sufficient balance, the opposite
of the claimed access denial. -/
theorem C1_conversion_failure_grants_access :
    (handle_command envConversionFailure (DataCommand.CatBytes 1 [7] 2)).1 ≠
      StepOutcome.fatal PalletError.InsufficientBalance ∧
    TraceEvent.ipfsCall (IpfsRequest.CatBytes [7]) ∈
      (handle_command envConversionFailure (DataCommand.CatBytes 1 [7] 2)).2 ∧
    handle_command envConversionFailure (DataCommand.CatBytes 1 [7] 2) =
      (StepOutcome.ok,
        [TraceEvent.balanceQuery 5 2,
         TraceEvent.ipfsCall (IpfsRequest.CatBytes [7]),
         TraceEvent.storageSet [7] [9],
         TraceEvent.txSubmit (SubmittedCall.submit_rpc_ready 2)]) := by
  decide

/-- C1, amended: a Fetch command whose resolved asset yields a recipient
balance of exactly zero is failed with `InsufficientBalance` after only the
balance query — no store fetch (`CatBytes`) call is made for it; but a balance
whose `u64` conversion fails (at least `2^64`) is treated as sufficient
(access granted) and the store fetch is performed. -/
theorem C1_zero_balance_denied (env : Env) (owner : AccountId) (cid : Cid)
    (recipient : AccountId) :
    (env.balanceOf (asset_class_ownership env.ledger owner cid) recipient = 0 →
      handle_command env (DataCommand.CatBytes owner cid recipient) =
        (StepOutcome.fatal PalletError.InsufficientBalance,
          [TraceEvent.balanceQuery (asset_class_ownership env.ledger owner cid)
            recipient])) ∧
    (2 ^ 64 ≤ env.balanceOf (asset_class_ownership env.ledger owner cid) recipient →
      TraceEvent.ipfsCall (IpfsRequest.CatBytes cid) ∈
        (handle_command env (DataCommand.CatBytes owner cid recipient)).2) := by
  constructor
  · intro h0
    simp only [handle_command, h0]
    norm_num
  · intro hbig
    have hnot : ¬ env.balanceOf (asset_class_ownership env.ledger owner cid)
        recipient < 2 ^ 64 := not_lt.mpr hbig
    simp only [handle_command, if_neg hnot]
    norm_num
    cases hres : env.ipfs (IpfsRequest.CatBytes cid) with
    | error e => simp [hres]
    | ok r => cases r <;> simp [hres]

/-- C1, witness: the amended theorem's zero-balance half at the concrete
zero-balance environment. -/
theorem C1_zero_balance_denied_witness :
    handle_command envZeroBalance (DataCommand.CatBytes 1 [7] 2) =
      (StepOutcome.fatal PalletError.InsufficientBalance,
        [TraceEvent.balanceQuery 5 2]) :=
  (C1_zero_balance_denied envZeroBalance 1 [7] 2).1 rfl

/-- An environment in which every `Connect` request fails with a transport
error, with a two-command data queue. -/
def envConnectError : Env :=
  { ipfs := fun req =>
      match req with
      | IpfsRequest.Connect _ => Except.error PalletError.RequestFailed
      | IpfsRequest.CatBytes _ => Except.ok (IpfsResponse.CatBytes [9])
      | _ => Except.ok IpfsResponse.Success,
    bootstrapNodes := [],
    dataQueue := [DataCommand.AddBytes [3] [7] 1 [] 5 10,
                  DataCommand.CatBytes 1 [8] 2],
    ledger := { ownership := fun _ _ => some 5 },
    balanceOf := fun _ _ => 4,
    signingAccounts := [4] }

/-- C2, counterexample: with a queue of two commands whose first (a Publish)
fails at the `Connect` step with `RequestFailed`, the whole tick aborts with
that error after the single connect call — the second command contributes no
events at all, although running it alone produces a nonempty trace.  The `?`
on the `Connect` request propagates the pipeline error out of the loop instead
of abandoning only the failing command. -/
theorem C2_connect_error_aborts_queue :
    handle_data_requests envConnectError =
      (RunResult.err PalletError.RequestFailed,
        [TraceEvent.ipfsCall (IpfsRequest.Connect [3])]) ∧
    (handle_command envConnectError (DataCommand.CatBytes 1 [8] 2)).2 ≠ [] := by
  decide

/-- C2, amended: a command whose own handling returns `ok` — which includes a
Publish command whose store-fetch step fails with a caught error, and a Fetch
command with nonzero balance whose store-fetch step fails — abandons only
itself: the queue continues exactly with the remaining commands; but a command
whose handling propagates a fatal error (a `Connect` or `Disconnect` failure
of a Publish command, or `InsufficientBalance` on a Fetch command) aborts the
remaining queue of the tick. -/
theorem C2_per_command_isolation (env : Env) (c : DataCommand)
    (rest : List DataCommand) :
    (∀ t, handle_command env c = (StepOutcome.ok, t) →
        run_queue env (c :: rest) =
          ((run_queue env rest).1, t ++ (run_queue env rest).2)) ∧
    (∀ e t, handle_command env c = (StepOutcome.fatal e, t) →
        run_queue env (c :: rest) = (RunResult.err e, t)) ∧
    (∀ addr cid admin nm id bal r e,
        env.ipfs (IpfsRequest.Connect addr) = Except.ok r →
        env.ipfs (IpfsRequest.CatBytes cid) = Except.error e →
        (handle_command env (DataCommand.AddBytes addr cid admin nm id bal)).1 =
          StepOutcome.ok) ∧
    (∀ owner cid recipient e,
        env.balanceOf (asset_class_ownership env.ledger owner cid) recipient ≠ 0 →
        env.ipfs (IpfsRequest.CatBytes cid) = Except.error e →
        (handle_command env (DataCommand.CatBytes owner cid recipient)).1 =
          StepOutcome.ok) := by
  refine ⟨?_, ?_, ?_, ?_⟩
  · intro t h
    cases hq : run_queue env rest with
    | mk r t2 => simp [run_queue, h, hq]
  · intro e t h
    simp [run_queue, h]
  · intro addr cid admin nm id bal r e hconn hcat
    simp [handle_command, hconn, hcat]
  · intro owner cid recipient e hbal hcat
    have hne : ¬ ((if env.balanceOf (asset_class_ownership env.ledger owner cid)
        recipient < 2 ^ 64 then
          some (env.balanceOf (asset_class_ownership env.ledger owner cid) recipient)
        else none) = some 0) := by
      split
      · simpa using hbal
      · simp
    simp only [handle_command, if_neg hne, hcat]

/-- C2, witness: the isolation theorem's first part at a concrete queue whose
single command succeeds. -/
theorem C2_per_command_isolation_witness :
    run_queue envConnectError [DataCommand.CatBytes 1 [8] 2] =
      ((run_queue envConnectError []).1,
        [TraceEvent.balanceQuery 5 2,
         TraceEvent.ipfsCall (IpfsRequest.CatBytes [8]),
         TraceEvent.storageSet [8] [9],
         TraceEvent.txSubmit (SubmittedCall.submit_rpc_ready 2)]
          ++ (run_queue envConnectError []).2) :=
  (C2_per_command_isolation envConnectError (DataCommand.CatBytes 1 [8] 2) []).1
    [TraceEvent.balanceQuery 5 2,
     TraceEvent.ipfsCall (IpfsRequest.CatBytes [8]),
     TraceEvent.storageSet [8] [9],
     TraceEvent.txSubmit (SubmittedCall.submit_rpc_ready 2)]
    (by decide)

/-- An environment for housekeeping: the node's own public key `[99]` is not
in the bootstrap directory; the single directory entry holds the two
multiaddresses `[10]` (second-to-last) and `[20]` (last); every `Connect`
request yields a non-`Success` response. -/
def envBootstrapFallback : Env :=
  { ipfs := fun req =>
      match req with
      | IpfsRequest.Identity => Except.ok (IpfsResponse.Identity [99] [])
      | IpfsRequest.Connect _ => Except.ok (IpfsResponse.CatBytes [])
      | _ => Except.ok IpfsResponse.Success,
    bootstrapNodes := [([1], [[10], [20]])],
    dataQueue := [],
    ledger := { ownership := fun _ _ => none },
    balanceOf := fun _ _ => 0,
    signingAccounts := [] }

/-- C6: evaluation at the failing input.  The first connect attempt targets
the last multiaddress `[20]` and fails with a non-`Success` response; the code
then makes exactly one fallback attempt, but it pops a fresh clone of the same
list, so the fallback targets `[20]` AGAIN — the second-to-last multiaddress
`[10]` of the same entry is never attempted, contrary to the claim. -/
theorem C6_fallback_retries_same_multiaddress :
    connection_housekeeping envBootstrapFallback =
      (RunResult.ok,
        [TraceEvent.ipfsCall IpfsRequest.Identity,
         TraceEvent.ipfsCall (IpfsRequest.Connect [20]),
         TraceEvent.ipfsCall (IpfsRequest.Connect [20])]) ∧
    TraceEvent.ipfsCall (IpfsRequest.Connect [10]) ∉
      (connection_housekeeping envBootstrapFallback).2 := by
  decide

/-- An environment with a Fetch command whose {owner, content id} pair has no
asset-id mapping in the ledger and whose balances are all zero. -/
def envNoMapping : Env :=
  { ipfs := fun _ => Except.ok IpfsResponse.Success,
    bootstrapNodes := [],
    dataQueue := [DataCommand.CatBytes 1 [7] 2],
    ledger := { ownership := fun _ _ => none },
    balanceOf := fun _ _ => 0,
    signingAccounts := [4] }

/-- C7: evaluation at the failing input.  For a Fetch command whose
{owner, content id} pair has NO mapping in the ledger, the irrefutable
`if let asset_id = ...` binding means the log-and-skip branch is dead code:
the pipeline resolves the default asset id 0, DOES query the recipient's
balance of asset 0, and (that balance being zero) aborts the whole tick with
`InsufficientBalance` — instead of skipping the command without error and
without a balance query as the claim states. -/
theorem C7_missing_mapping_not_skipped :
    handle_command envNoMapping (DataCommand.CatBytes 1 [7] 2) =
      (StepOutcome.fatal PalletError.InsufficientBalance,
        [TraceEvent.balanceQuery 0 2]) ∧
    handle_data_requests envNoMapping =
      (RunResult.err PalletError.InsufficientBalance,
        [TraceEvent.balanceQuery 0 2]) := by
  decide
